import Mathlib

/-!
Shallow embedding of `src/cli.py` of the lexe-wrapper repository.

The CLI's `main` function parses arguments, constructs a `LexeManager`
(imported from the external `lexe_wrapper` module, not part of this
repository's sources), and dispatches on one of six commands.  We embed
`main` as a pure function from the parsed arguments and the manager's
behaviour to a trace of observable events (manager-operation calls,
stdout prints, stderr prints) together with an outcome: a returned exit
code or an exception that propagates out of `main` uncaught.

Python's exception hierarchy matters to `main`: construction is guarded
by `except ValueError` only; the command dispatch is guarded by
`except KeyboardInterrupt` and `except Exception`; the `node-info`
branch has an inner `except Exception`.  In Python 3, `ValueError` is an
`Exception`, `KeyboardInterrupt` is a `BaseException` that is *not* an
`Exception`, and further `BaseException` subclasses (e.g. `SystemExit`)
are caught by none of these handlers.  We model an exception as a class
tag plus a message string.
-/

set_option autoImplicit false

namespace LexeCli

/-- Python exception classes, as far as the handlers in `cli.py`
distinguish them: `ValueError`, `KeyboardInterrupt`, any other subclass
of `Exception`, and any other subclass of `BaseException` (such as
`SystemExit`) that no `except Exception` clause catches. -/
inductive ExcClass where
  | valueError
  | keyboardInterrupt
  | otherException
  | otherBaseException
  deriving DecidableEq, Repr

/-- Does `except Exception` catch this class?  `ValueError` and every
other `Exception` subclass: yes; `KeyboardInterrupt` and other bare
`BaseException` subclasses: no. -/
def ExcClass.catchableByExcept : ExcClass → Bool
  | .valueError => true
  | .otherException => true
  | .keyboardInterrupt => false
  | .otherBaseException => false

/-- A raised Python exception: its class together with the message text
that `str(e)` yields when `main` prints it. -/
structure Exc where
  cls : ExcClass
  msg : String
  deriving DecidableEq, Repr

/-- Node information returned by the sidecar API: an opaque structured
value; we keep only its rendered form (what `json.dumps` prints). -/
abbrev NodeInfo := String

/-- Rendering of node info for printing; the value is kept already
rendered, so this is the identity. -/
def jsonDumps (n : NodeInfo) : String := n

/-- The six subcommands accepted by `cli.py`'s argument parser. -/
inductive Cmd where
  | start
  | stop
  | status
  | nodeInfo
  | download
  | health
  deriving DecidableEq, Repr

/-- The parsed command-line arguments of `cli.py`:
`command`, `--credentials` (optional), `--port` (int, default 5393),
`--timeout` (int, default 30), `--no-wait` (flag), `--verbose` (flag). -/
structure Args where
  command : Cmd
  credentials : Option String
  port : Int
  timeout : Int
  no_wait : Bool
  verbose : Bool
  deriving DecidableEq, Repr

/-- Arguments produced by the parser when only the command is supplied:
argparse fills in its declared defaults — no credentials, port 5393,
timeout 30, flags off. -/
def defaultArgs (c : Cmd) : Args :=
  { command := c
    credentials := none
    port := 5393
    timeout := 30
    no_wait := false
    verbose := false }

/-- The behaviour of the constructed `LexeManager` object, as observed
by `cli.py`.  The class itself lives in the external `lexe_wrapper`
module, so each operation is modelled by the result it produces when
`main` calls it: a normal return value or a raised exception. -/
structure LexeManager where
  client_credentials : Option String
  base_url : String
  download_sidecar_binary : Except Exc String
  start_sidecar : Bool → Int → Except Exc Bool
  stop_sidecar : Except Exc Bool
  is_running : Except Exc Bool
  check_health : Except Exc Bool
  get_node_info : Except Exc NodeInfo

/-- Python truthiness test `not manager.client_credentials` for a value
that is either `None` or a string: falsy when absent or empty. -/
def credsFalsy : Option String → Bool
  | none => true
  | some s => s.isEmpty

/-- Observable events of a run of `main`: calls into the manager (with
their arguments), lines printed to stdout, and lines printed to
stderr. -/
inductive Event where
  | callConstructor (credentials : Option String) (port : Int)
  | callDownload
  | callStartSidecar (wait_for_health : Bool) (health_timeout : Int)
  | callStopSidecar
  | callIsRunning
  | callCheckHealth
  | callGetNodeInfo
  | print (line : String)
  | printErr (line : String)
  deriving DecidableEq, Repr

/-- Is this event a call of a manager operation? -/
def isManagerCall : Event → Bool
  | .callDownload => true
  | .callStartSidecar _ _ => true
  | .callStopSidecar => true
  | .callIsRunning => true
  | .callCheckHealth => true
  | .callGetNodeInfo => true
  | _ => false

/-- Is this event a call of `start_sidecar`? -/
def isCallStartSidecar : Event → Bool
  | .callStartSidecar _ _ => true
  | _ => false

/-- Is this event a call of `check_health`? -/
def isCallCheckHealth : Event → Bool
  | .callCheckHealth => true
  | _ => false

/-- The stderr message `main` prints when the `start` command finds no
client credentials on the manager. -/
def credsRequiredMsg : String :=
  "Error: Client credentials are required. Set LEXE_CLIENT_CREDENTIALS or use --credentials"

/-- The body of `main`'s command dispatch (the `try:` block of
`cli.py`, lines 90-143): given the parsed arguments and the manager, it
yields the trace of events and either the returned exit code or the
exception the block raises. -/
def runCommand (args : Args) (m : LexeManager) : List Event × Except Exc Nat :=
  match args.command with
  | .download =>
    let tr := [Event.print "Downloading Lexe sidecar binary...", Event.callDownload]
    match m.download_sidecar_binary with
    | .error e => (tr, Except.error e)
    | .ok p => (tr ++ [Event.print ("✓ Binary ready at: " ++ p)], Except.ok 0)
  | .start =>
    if credsFalsy m.client_credentials then
      ([Event.printErr credsRequiredMsg], Except.ok 1)
    else
      let w := !args.no_wait
      let tr := [Event.print "Starting Lexe sidecar...", Event.callStartSidecar w args.timeout]
      match m.start_sidecar w args.timeout with
      | .error e => (tr, Except.error e)
      | .ok true =>
        let tr := tr ++ [Event.print ("✓ Sidecar started successfully on port " ++ toString args.port)]
        let tr := if !args.no_wait then tr ++ [Event.print "✓ Health check passed"] else tr
        (tr, Except.ok 0)
      | .ok false =>
        (tr ++ [Event.printErr "✗ Failed to start sidecar"], Except.ok 1)
  | .stop =>
    let tr := [Event.print "Stopping Lexe sidecar...", Event.callStopSidecar]
    match m.stop_sidecar with
    | .error e => (tr, Except.error e)
    | .ok true => (tr ++ [Event.print "✓ Sidecar stopped"], Except.ok 0)
    | .ok false => (tr ++ [Event.printErr "✗ Failed to stop sidecar"], Except.ok 1)
  | .status =>
    match m.is_running with
    | .error e => ([Event.callIsRunning], Except.error e)
    | .ok true =>
      match m.check_health with
      | .error e => ([Event.callIsRunning, Event.callCheckHealth], Except.error e)
      | .ok healthy =>
        ([Event.callIsRunning, Event.callCheckHealth,
          Event.print "Sidecar process: Running",
          Event.print ("Health status: " ++ (if healthy then "Healthy" else "Unhealthy")),
          Event.print ("URL: " ++ m.base_url)], Except.ok 0)
    | .ok false =>
      ([Event.callIsRunning, Event.print "Sidecar process: Not running"], Except.ok 0)
  | .health =>
    match m.check_health with
    | .error e => ([Event.callCheckHealth], Except.error e)
    | .ok true => ([Event.callCheckHealth, Event.print "✓ Sidecar is healthy"], Except.ok 0)
    | .ok false => ([Event.callCheckHealth, Event.print "✗ Sidecar is not healthy"], Except.ok 1)
  | .nodeInfo =>
    match m.get_node_info with
    | .error e =>
      if e.cls.catchableByExcept then
        ([Event.callGetNodeInfo,
          Event.printErr ("✗ Failed to get node info: " ++ e.msg)], Except.ok 1)
      else
        ([Event.callGetNodeInfo], Except.error e)
    | .ok info =>
      ([Event.callGetNodeInfo, Event.print "Node Information:",
        Event.print (jsonDumps info)], Except.ok 0)

/-- The outer handlers of `main` (`except KeyboardInterrupt` then
`except Exception`, lines 145-150): a `KeyboardInterrupt` prints the
interruption notice and returns 1, any other `Exception` prints the
error to stderr and returns 1, and any remaining `BaseException`
propagates. -/
def handleTop (tr : List Event) (r : Except Exc Nat) : List Event × Except Exc Nat :=
  match r with
  | .ok n => (tr, Except.ok n)
  | .error e =>
    if e.cls = ExcClass.keyboardInterrupt then
      (tr ++ [Event.print "\nInterrupted by user"], Except.ok 1)
    else if e.cls.catchableByExcept then
      (tr ++ [Event.printErr ("Error: " ++ e.msg)], Except.ok 1)
    else
      (tr, Except.error e)

/-- `main` of `cli.py` after argument parsing, given the outcome of the
`LexeManager` construction: a `ValueError` there is printed to stderr
and yields exit code 1 (lines 80-87), any other exception from the
constructor propagates; with a constructed manager the command dispatch
runs under the outer handlers. -/
def mainRun (args : Args) (ctor : Except Exc LexeManager) : List Event × Except Exc Nat :=
  match ctor with
  | .error e =>
    if e.cls = ExcClass.valueError then
      ([Event.printErr ("Error: " ++ e.msg)], Except.ok 1)
    else
      ([], Except.error e)
  | .ok m =>
    let r := runCommand args m
    handleTop r.1 r.2

/-- `main` including the constructor call itself: `LexeManager` is
constructed with `client_credentials=args.credentials, port=args.port`
(lines 81-84); the construction call is recorded as the first trace
event. -/
def mainFull (args : Args) (construct : Option String → Int → Except Exc LexeManager) :
    List Event × Except Exc Nat :=
  let r := mainRun args (construct args.credentials args.port)
  (Event.callConstructor args.credentials args.port :: r.1, r.2)

/-- Modelled from the spec: `LexeManager.get_node_info` (the Supervisor
Facade's `query` operation, section 4.5), whose implementation is not
under src/ — "precondition — process alive; delegates to 4.4; does not
auto-start the process", and "called while status().alive == false →
fails with a precondition error, no network call attempted".  Given
whether the process is alive and the result the network call would
produce, returns the operation's result together with a flag recording
whether a network call was attempted. -/
def get_node_info_model (alive : Bool) (net : Except Exc NodeInfo) :
    Except Exc NodeInfo × Bool :=
  if alive then (net, true)
  else (Except.error ⟨ExcClass.otherException, "Sidecar process is not running"⟩, false)

/-- Modelled from the spec: `LexeManager.stop_sidecar` (the Supervisor
Facade's `stop` operation, section 4.5), whose implementation is not
under src/ — "no-op success if already Stopped; otherwise terminates
(4.2) and transitions to Stopped unconditionally"; "calling stop() when
already Stopped succeeds without side effects".  Given whether a live
process is tracked, returns the boolean result together with a flag
recording whether a termination side effect occurred. -/
def stop_sidecar_model (alive : Bool) : Bool × Bool :=
  if alive then (true, true) else (true, false)

/-- A concrete well-behaved manager, used to instantiate the theorems at
witness points: credentials present, every operation succeeds. -/
def mgrOk : LexeManager where
  client_credentials := some "Y3JlZHM="
  base_url := "http://localhost:5393"
  download_sidecar_binary := Except.ok "/root/.lexe/lexe-sidecar"
  start_sidecar := fun _ _ => Except.ok true
  stop_sidecar := Except.ok true
  is_running := Except.ok true
  check_health := Except.ok true
  get_node_info := Except.ok "node-pk"

/-- A manager whose resolved client credentials are absent. -/
def mgrNoCreds : LexeManager := { mgrOk with client_credentials := none }

/-- A manager whose process is not alive; its `get_node_info` behaves as
the spec-modelled query operation with `alive = false`. -/
def mgrNotAlive : LexeManager :=
  { mgrOk with
      is_running := Except.ok false
      get_node_info := (get_node_info_model false (Except.ok "node-pk")).1 }

/-- A `SystemExit`-like exception: a `BaseException` that is neither a
`KeyboardInterrupt` nor an `Exception` subclass. -/
def sysExit : Exc := ⟨ExcClass.otherBaseException, "3"⟩

/-- A manager whose `stop_sidecar` raises a `SystemExit`-like
`BaseException`. -/
def mgrSysExit : LexeManager := { mgrOk with stop_sidecar := Except.error sysExit }

/-- A `KeyboardInterrupt`, as raised when the user hits Ctrl-C during a
command. -/
def kbdInt : Exc := ⟨ExcClass.keyboardInterrupt, ""⟩

/-- A manager whose `check_health` raises a `KeyboardInterrupt`. -/
def mgrKbdInt : LexeManager := { mgrOk with check_health := Except.error kbdInt }

/-- A `ValueError` as the `LexeManager` constructor raises on invalid
configuration. -/
def valErr : Exc := ⟨ExcClass.valueError, "Invalid port"⟩

/-- A non-`ValueError` exception from the constructor, e.g. a
`TypeError`. -/
def typeErr : Exc := ⟨ExcClass.otherException, "unexpected keyword argument"⟩

/-- A constructor behaviour that always succeeds with `mgrOk`. -/
def constructOk : Option String → Int → Except Exc LexeManager :=
  fun _ _ => Except.ok mgrOk

/-! ## Helper lemmas about the embedded `main` -/

/-- Unfolding of `mainRun` on a successfully constructed manager. -/
theorem mainRun_ok (args : Args) (m : LexeManager) :
    mainRun args (Except.ok m) =
      handleTop (runCommand args m).1 (runCommand args m).2 := rfl

/-- The outer handlers pass a normal return through unchanged. -/
theorem handleTop_ok (tr : List Event) (n : Nat) :
    handleTop tr (Except.ok n) = (tr, Except.ok n) := rfl

/-- The outer handlers never turn a raised exception into exit code 0:
they return exit code 1 or re-raise. -/
theorem handleTop_error_ne_ok0 (tr : List Event) (e : Exc) :
    (handleTop tr (Except.error e)).2 ≠ Except.ok 0 := by
  by_cases h1 : e.cls = ExcClass.keyboardInterrupt
  · simp [handleTop, h1]
  · cases h2 : e.cls.catchableByExcept <;> simp [handleTop, h1, h2]

/-- Events appended by the outer handlers are prints only, so any filter
that ignores prints is unchanged by them. -/
theorem filter_handleTop (p : Event → Bool)
    (hp1 : ∀ s, p (Event.print s) = false)
    (hp2 : ∀ s, p (Event.printErr s) = false)
    (tr : List Event) (r : Except Exc Nat) :
    ((handleTop tr r).1).filter p = tr.filter p := by
  rcases r with e | n
  · by_cases h1 : e.cls = ExcClass.keyboardInterrupt
    · simp [handleTop, h1, List.filter_append, List.filter, hp1, hp2]
    · cases h2 : e.cls.catchableByExcept <;>
        simp [handleTop, h1, h2, List.filter_append, List.filter, hp1, hp2]
  · rfl

/-- A non-print event is in the trace after the outer handlers exactly
when it was in the trace before them. -/
theorem mem_handleTop (ev : Event) (tr : List Event) (r : Except Exc Nat)
    (h1 : ∀ s, ev ≠ Event.print s) (h2 : ∀ s, ev ≠ Event.printErr s) :
    (ev ∈ (handleTop tr r).1 ↔ ev ∈ tr) := by
  rcases r with e | n
  · by_cases hk : e.cls = ExcClass.keyboardInterrupt
    · simp [handleTop, hk, h1]
    · cases hc : e.cls.catchableByExcept <;> simp [handleTop, hk, hc, h1, h2]
  · rfl

/-- The command dispatch only ever returns exit code 0 or 1. -/
theorem runCommand_codes (args : Args) (m : LexeManager) (n : Nat)
    (h : (runCommand args m).2 = Except.ok n) : n = 0 ∨ n = 1 := by
  cases hc : args.command
  case download =>
    rcases hd : m.download_sidecar_binary with e | p
    · simp [runCommand, hc, hd] at h
    · simp [runCommand, hc, hd] at h; omega
  case start =>
    cases hcr : credsFalsy m.client_credentials
    · rcases hs : m.start_sidecar (!args.no_wait) args.timeout with e | b
      · simp [runCommand, hc, hcr, hs] at h
      · cases b <;> simp [runCommand, hc, hcr, hs] at h <;> omega
    · simp [runCommand, hc, hcr] at h; omega
  case stop =>
    rcases hs : m.stop_sidecar with e | b
    · simp [runCommand, hc, hs] at h
    · cases b <;> simp [runCommand, hc, hs] at h <;> omega
  case status =>
    rcases hr : m.is_running with e | b
    · simp [runCommand, hc, hr] at h
    · cases b
      · simp [runCommand, hc, hr] at h; omega
      · rcases hh : m.check_health with e | hb
        · simp [runCommand, hc, hr, hh] at h
        · simp [runCommand, hc, hr, hh] at h; omega
  case health =>
    rcases hh : m.check_health with e | b
    · simp [runCommand, hc, hh] at h
    · cases b <;> simp [runCommand, hc, hh] at h <;> omega
  case nodeInfo =>
    rcases hi : m.get_node_info with e | info
    · cases hcb : e.cls.catchableByExcept
      · simp [runCommand, hc, hi, hcb] at h
      · simp [runCommand, hc, hi, hcb] at h; omega
    · simp [runCommand, hc, hi] at h; omega

/-- In a start invocation with credentials present, the trace contains
exactly one `start_sidecar` call, carrying the negated no-wait flag and
the timeout argument. -/
theorem start_trace_filter (args : Args) (m : LexeManager)
    (hc : args.command = Cmd.start) (hcr : credsFalsy m.client_credentials = false) :
    (mainRun args (Except.ok m)).1.filter isCallStartSidecar
      = [Event.callStartSidecar (!args.no_wait) args.timeout] := by
  rw [mainRun_ok, filter_handleTop isCallStartSidecar (fun s => rfl) (fun s => rfl)]
  cases hnw : args.no_wait
  · rcases hs : m.start_sidecar true args.timeout with e | b
    · simp [runCommand, hc, hcr, hnw, hs, isCallStartSidecar, List.filter]
    · cases b <;>
        simp [runCommand, hc, hcr, hnw, hs, isCallStartSidecar,
          List.filter, List.filter_append]
  · rcases hs : m.start_sidecar false args.timeout with e | b
    · simp [runCommand, hc, hcr, hnw, hs, isCallStartSidecar, List.filter]
    · cases b <;>
        simp [runCommand, hc, hcr, hnw, hs, isCallStartSidecar,
          List.filter, List.filter_append]

/-- In a start invocation with credentials present, the exit code is 0
exactly when `start_sidecar` returned `True`. -/
theorem start_outcome_iff (args : Args) (m : LexeManager)
    (hc : args.command = Cmd.start) (hcr : credsFalsy m.client_credentials = false) :
    ((mainRun args (Except.ok m)).2 = Except.ok 0 ↔
      m.start_sidecar (!args.no_wait) args.timeout = Except.ok true) := by
  rw [mainRun_ok]
  rcases hs : m.start_sidecar (!args.no_wait) args.timeout with e | b
  · have h1 : (runCommand args m).2 = Except.error e := by
      simp [runCommand, hc, hcr, hs]
    rw [h1]
    constructor
    · intro h0; exact absurd h0 (handleTop_error_ne_ok0 _ e)
    · intro h0; simp at h0
  · cases b
    · have h1 : (runCommand args m).2 = Except.ok 1 := by
        simp [runCommand, hc, hcr, hs]
      rw [h1]
      simp [handleTop]
    · have h1 : (runCommand args m).2 = Except.ok 0 := by
        simp [runCommand, hc, hcr, hs]
      rw [h1]
      simp [handleTop]

/-! ## Claim theorems -/

/-- C1: for every invocation of the start command where the constructed
manager's client credentials are absent (falsy), main prints the error
message to stderr, returns exit code 1, and its trace contains no
manager-operation call at all — in particular no start_sidecar call and
no download. -/
theorem cli_start_missing_credentials (args : Args) (m : LexeManager)
    (hc : args.command = Cmd.start) (hcr : credsFalsy m.client_credentials = true) :
    mainRun args (Except.ok m) = ([Event.printErr credsRequiredMsg], Except.ok 1) ∧
    (mainRun args (Except.ok m)).1.filter isManagerCall = [] := by
  have h1 : runCommand args m = ([Event.printErr credsRequiredMsg], Except.ok 1) := by
    simp [runCommand, hc, hcr]
  constructor
  · rw [mainRun_ok, h1]; rfl
  · rw [mainRun_ok, h1]; rfl

/-- C1 witness: the start command with the credential-less manager and
default arguments. -/
theorem cli_start_missing_credentials_w :
    mainRun (defaultArgs Cmd.start) (Except.ok mgrNoCreds)
        = ([Event.printErr credsRequiredMsg], Except.ok 1) ∧
    (mainRun (defaultArgs Cmd.start) (Except.ok mgrNoCreds)).1.filter isManagerCall = [] :=
  cli_start_missing_credentials (defaultArgs Cmd.start) mgrNoCreds rfl rfl

/-- C2: for every invocation of the node-info command on a manager whose
get_node_info behaves as the spec-modelled query operation with the
process not alive, the operation attempts no network call, and main
reports the precondition failure on stderr and returns exit code 1. -/
theorem cli_node_info_not_alive (args : Args) (m : LexeManager)
    (net : Except Exc NodeInfo) (hc : args.command = Cmd.nodeInfo)
    (hm : m.get_node_info = (get_node_info_model false net).1) :
    (get_node_info_model false net).2 = false ∧
    mainRun args (Except.ok m) =
      ([Event.callGetNodeInfo,
        Event.printErr ("✗ Failed to get node info: " ++ "Sidecar process is not running")],
       Except.ok 1) := by
  have hm2 : m.get_node_info =
      Except.error ⟨ExcClass.otherException, "Sidecar process is not running"⟩ := by
    rw [hm]; rfl
  refine ⟨rfl, ?_⟩
  have h1 : runCommand args m =
      ([Event.callGetNodeInfo,
        Event.printErr ("✗ Failed to get node info: " ++ "Sidecar process is not running")],
       Except.ok 1) := by
    simp [runCommand, hc, hm2, ExcClass.catchableByExcept]
  rw [mainRun_ok, h1]; rfl

/-- C2 witness: the node-info command against the not-alive manager. -/
theorem cli_node_info_not_alive_w :
    (get_node_info_model false (Except.ok "node-pk")).2 = false ∧
    mainRun (defaultArgs Cmd.nodeInfo) (Except.ok mgrNotAlive) =
      ([Event.callGetNodeInfo,
        Event.printErr ("✗ Failed to get node info: " ++ "Sidecar process is not running")],
       Except.ok 1) :=
  cli_node_info_not_alive (defaultArgs Cmd.nodeInfo) mgrNotAlive
    (Except.ok "node-pk") rfl rfl

/-- C3: for every invocation of the status command, check_health is
called exactly when is_running returned True; when the process is not
running, the run prints only the not-running line, reports exit code 0,
and prints neither the health line nor the URL line. -/
theorem cli_status_probe_iff_running (args : Args) (m : LexeManager)
    (hc : args.command = Cmd.status) :
    (Event.callCheckHealth ∈ (mainRun args (Except.ok m)).1 ↔
      m.is_running = Except.ok true) ∧
    (m.is_running = Except.ok false →
      mainRun args (Except.ok m) =
        ([Event.callIsRunning, Event.print "Sidecar process: Not running"],
         Except.ok 0)) := by
  rw [mainRun_ok]
  rcases hr : m.is_running with e | b
  · have h1 : runCommand args m = ([Event.callIsRunning], Except.error e) := by
      simp [runCommand, hc, hr]
    rw [h1]
    constructor
    · rw [mem_handleTop _ _ _ (fun s => by simp) (fun s => by simp)]
      simp [hr]
    · intro hf; simp at hf
  · cases b
    · have h1 : runCommand args m =
          ([Event.callIsRunning, Event.print "Sidecar process: Not running"],
           Except.ok 0) := by
        simp [runCommand, hc, hr]
      rw [h1]
      exact ⟨by simp [handleTop, hr], fun _ => rfl⟩
    · constructor
      · rcases hh : m.check_health with e2 | hb
        · have h1 : runCommand args m =
              ([Event.callIsRunning, Event.callCheckHealth], Except.error e2) := by
            simp [runCommand, hc, hr, hh]
          rw [h1, mem_handleTop _ _ _ (fun s => by simp) (fun s => by simp)]
          simp [hr]
        · have h1 : runCommand args m =
              ([Event.callIsRunning, Event.callCheckHealth,
                Event.print "Sidecar process: Running",
                Event.print ("Health status: " ++ (if hb then "Healthy" else "Unhealthy")),
                Event.print ("URL: " ++ m.base_url)], Except.ok 0) := by
            simp [runCommand, hc, hr, hh]
          rw [h1]
          simp [handleTop, hr]
      · intro hf; simp at hf

/-- C3 witness: the status command against the not-alive manager. -/
theorem cli_status_probe_iff_running_w :
    (Event.callCheckHealth ∈
        (mainRun (defaultArgs Cmd.status) (Except.ok mgrNotAlive)).1 ↔
      mgrNotAlive.is_running = Except.ok true) ∧
    (mgrNotAlive.is_running = Except.ok false →
      mainRun (defaultArgs Cmd.status) (Except.ok mgrNotAlive) =
        ([Event.callIsRunning, Event.print "Sidecar process: Not running"],
         Except.ok 0)) :=
  cli_status_probe_iff_running (defaultArgs Cmd.status) mgrNotAlive rfl

/-- C4: if the LexeManager constructor raises a ValueError, main prints
the error to stderr and returns exit code 1, and the trace contains no
manager-operation call: no command is ever executed. -/
theorem cli_ctor_valueerror (args : Args) (e : Exc)
    (h : e.cls = ExcClass.valueError) :
    mainRun args (Except.error e) =
      ([Event.printErr ("Error: " ++ e.msg)], Except.ok 1) ∧
    (mainRun args (Except.error e)).1.filter isManagerCall = [] := by
  have h1 : mainRun args (Except.error e) =
      ([Event.printErr ("Error: " ++ e.msg)], Except.ok 1) := by
    simp [mainRun, h]
  exact ⟨h1, by rw [h1]; rfl⟩

/-- C4 witness: construction fails with a ValueError on the start
command. -/
theorem cli_ctor_valueerror_w :
    mainRun (defaultArgs Cmd.start) (Except.error valErr) =
      ([Event.printErr ("Error: " ++ valErr.msg)], Except.ok 1) ∧
    (mainRun (defaultArgs Cmd.start) (Except.error valErr)).1.filter isManagerCall = [] :=
  cli_ctor_valueerror (defaultArgs Cmd.start) valErr rfl

/-- C5: for every invocation of the start command with credentials
present, the trace contains exactly one start_sidecar call, with
wait_for_health the negation of the no-wait flag and health_timeout the
timeout argument, and the exit code is 0 exactly when start_sidecar
returned True. -/
theorem cli_start_calls_once (args : Args) (m : LexeManager)
    (hc : args.command = Cmd.start) (hcr : credsFalsy m.client_credentials = false) :
    (mainRun args (Except.ok m)).1.filter isCallStartSidecar
        = [Event.callStartSidecar (!args.no_wait) args.timeout] ∧
    ((mainRun args (Except.ok m)).2 = Except.ok 0 ↔
        m.start_sidecar (!args.no_wait) args.timeout = Except.ok true) :=
  ⟨start_trace_filter args m hc hcr, start_outcome_iff args m hc hcr⟩

/-- C5 witness: the start command on the well-behaved manager with
default arguments. -/
theorem cli_start_calls_once_w :
    (mainRun (defaultArgs Cmd.start) (Except.ok mgrOk)).1.filter isCallStartSidecar
        = [Event.callStartSidecar (!(defaultArgs Cmd.start).no_wait)
            (defaultArgs Cmd.start).timeout] ∧
    ((mainRun (defaultArgs Cmd.start) (Except.ok mgrOk)).2 = Except.ok 0 ↔
        mgrOk.start_sidecar (!(defaultArgs Cmd.start).no_wait)
            (defaultArgs Cmd.start).timeout = Except.ok true) :=
  cli_start_calls_once (defaultArgs Cmd.start) mgrOk rfl rfl

/-- C6: for every invocation of the stop command, the exit code is 0
exactly when stop_sidecar returned True; the spec-modelled stop
operation on an already-stopped supervisor succeeds without a
termination side effect, so such an invocation exits 0. -/
theorem cli_stop_exit_code (args : Args) (m : LexeManager)
    (hc : args.command = Cmd.stop) :
    ((mainRun args (Except.ok m)).2 = Except.ok 0 ↔ m.stop_sidecar = Except.ok true) ∧
    stop_sidecar_model false = (true, false) ∧
    (m.stop_sidecar = Except.ok (stop_sidecar_model false).1 →
      (mainRun args (Except.ok m)).2 = Except.ok 0) := by
  have hiff : (mainRun args (Except.ok m)).2 = Except.ok 0 ↔
      m.stop_sidecar = Except.ok true := by
    rw [mainRun_ok]
    rcases hs : m.stop_sidecar with e | b
    · have h1 : (runCommand args m).2 = Except.error e := by
        simp [runCommand, hc, hs]
      rw [h1]
      constructor
      · intro h0; exact absurd h0 (handleTop_error_ne_ok0 _ e)
      · intro h0; simp at h0
    · cases b
      · have h1 : (runCommand args m).2 = Except.ok 1 := by
          simp [runCommand, hc, hs]
        rw [h1]
        simp [handleTop]
      · have h1 : (runCommand args m).2 = Except.ok 0 := by
          simp [runCommand, hc, hs]
        rw [h1]
        simp [handleTop]
  refine ⟨hiff, rfl, fun hstop => hiff.mpr ?_⟩
  simpa [stop_sidecar_model] using hstop

/-- C6 witness: the stop command on the well-behaved manager. -/
theorem cli_stop_exit_code_w :
    ((mainRun (defaultArgs Cmd.stop) (Except.ok mgrOk)).2 = Except.ok 0 ↔
      mgrOk.stop_sidecar = Except.ok true) ∧
    stop_sidecar_model false = (true, false) ∧
    (mgrOk.stop_sidecar = Except.ok (stop_sidecar_model false).1 →
      (mainRun (defaultArgs Cmd.stop) (Except.ok mgrOk)).2 = Except.ok 0) :=
  cli_stop_exit_code (defaultArgs Cmd.stop) mgrOk rfl

/-- C7: for every invocation of the health command, the trace contains
exactly one check_health call and the exit code is 0 exactly when
check_health returned True. -/
theorem cli_health_exit_code (args : Args) (m : LexeManager)
    (hc : args.command = Cmd.health) :
    (mainRun args (Except.ok m)).1.filter isCallCheckHealth = [Event.callCheckHealth] ∧
    ((mainRun args (Except.ok m)).2 = Except.ok 0 ↔ m.check_health = Except.ok true) := by
  constructor
  · rw [mainRun_ok, filter_handleTop isCallCheckHealth (fun s => rfl) (fun s => rfl)]
    rcases hh : m.check_health with e | b
    · simp [runCommand, hc, hh, isCallCheckHealth, List.filter]
    · cases b <;> simp [runCommand, hc, hh, isCallCheckHealth, List.filter]
  · rw [mainRun_ok]
    rcases hh : m.check_health with e | b
    · have h1 : (runCommand args m).2 = Except.error e := by
        simp [runCommand, hc, hh]
      rw [h1]
      constructor
      · intro h0; exact absurd h0 (handleTop_error_ne_ok0 _ e)
      · intro h0; simp at h0
    · cases b
      · have h1 : (runCommand args m).2 = Except.ok 1 := by
          simp [runCommand, hc, hh]
        rw [h1]
        simp [handleTop]
      · have h1 : (runCommand args m).2 = Except.ok 0 := by
          simp [runCommand, hc, hh]
        rw [h1]
        simp [handleTop]

/-- C7 witness: the health command on the well-behaved manager. -/
theorem cli_health_exit_code_w :
    (mainRun (defaultArgs Cmd.health) (Except.ok mgrOk)).1.filter isCallCheckHealth
        = [Event.callCheckHealth] ∧
    ((mainRun (defaultArgs Cmd.health) (Except.ok mgrOk)).2 = Except.ok 0 ↔
      mgrOk.check_health = Except.ok true) :=
  cli_health_exit_code (defaultArgs Cmd.health) mgrOk rfl

/-- C8: with neither --port nor --timeout supplied, the parsed defaults
are port 5393 and timeout 30; the constructor is then called with port
5393 and, with credentials present, start_sidecar is called with
wait_for_health True and health_timeout 30. -/
theorem cli_default_port_timeout
    (construct : Option String → Int → Except Exc LexeManager) (m : LexeManager)
    (hctor : construct none 5393 = Except.ok m)
    (hcr : credsFalsy m.client_credentials = false) :
    (defaultArgs Cmd.start).port = 5393 ∧ (defaultArgs Cmd.start).timeout = 30 ∧
    (mainFull (defaultArgs Cmd.start) construct).1.head?
        = some (Event.callConstructor none 5393) ∧
    (mainFull (defaultArgs Cmd.start) construct).1.filter isCallStartSidecar
        = [Event.callStartSidecar true 30] := by
  refine ⟨rfl, rfl, rfl, ?_⟩
  have h := start_trace_filter (defaultArgs Cmd.start) m rfl hcr
  calc (mainFull (defaultArgs Cmd.start) construct).1.filter isCallStartSidecar
      = (mainRun (defaultArgs Cmd.start) (Except.ok m)).1.filter isCallStartSidecar := by
        simp [mainFull, defaultArgs, hctor, isCallStartSidecar, List.filter]
    _ = [Event.callStartSidecar true 30] := by simpa [defaultArgs] using h

/-- C8 witness: the always-succeeding constructor yielding the
well-behaved manager. -/
theorem cli_default_port_timeout_w :
    (defaultArgs Cmd.start).port = 5393 ∧ (defaultArgs Cmd.start).timeout = 30 ∧
    (mainFull (defaultArgs Cmd.start) constructOk).1.head?
        = some (Event.callConstructor none 5393) ∧
    (mainFull (defaultArgs Cmd.start) constructOk).1.filter isCallStartSidecar
        = [Event.callStartSidecar true 30] :=
  cli_default_port_timeout constructOk mgrOk rfl rfl

/-- C9 counterexample: a manager operation raising a BaseException that
is neither KeyboardInterrupt nor an Exception subclass — here a
SystemExit-like exception from stop_sidecar — propagates out of main
uncaught instead of being converted to an exit code. -/
theorem cli_base_exception_escape :
    (mainRun (defaultArgs Cmd.stop) (Except.ok mgrSysExit)).2 = Except.error sysExit := rfl

/-- C9 (amended): after successful construction, main only ever returns
exit code 0 or 1; when the command body raises a KeyboardInterrupt it is
caught, the interruption notice is printed and the exit code is 1; when
it raises any other Exception-subclass exception it is caught, the error
message is printed to stderr and the exit code is 1; and the only
exceptions main propagates are those that neither handler catches,
i.e. bare BaseException subclasses other than KeyboardInterrupt. -/
theorem cli_exception_containment (args : Args) (m : LexeManager) :
    (∀ n : Nat, (mainRun args (Except.ok m)).2 = Except.ok n → n = 0 ∨ n = 1) ∧
    (∀ e : Exc, (runCommand args m).2 = Except.error e →
      (e.cls = ExcClass.keyboardInterrupt →
        mainRun args (Except.ok m) =
          ((runCommand args m).1 ++ [Event.print "\nInterrupted by user"],
           Except.ok 1)) ∧
      (e.cls ≠ ExcClass.keyboardInterrupt → e.cls.catchableByExcept = true →
        mainRun args (Except.ok m) =
          ((runCommand args m).1 ++ [Event.printErr ("Error: " ++ e.msg)],
           Except.ok 1))) ∧
    (∀ e : Exc, (mainRun args (Except.ok m)).2 = Except.error e →
      e.cls.catchableByExcept = false ∧ e.cls ≠ ExcClass.keyboardInterrupt) := by
  rw [mainRun_ok]
  rcases hr : (runCommand args m).2 with e | k
  · refine ⟨?_, ?_, ?_⟩
    · intro n hn
      by_cases hk : e.cls = ExcClass.keyboardInterrupt
      · simp [handleTop, hk] at hn; omega
      · cases hcb : e.cls.catchableByExcept
        · simp [handleTop, hk, hcb] at hn
        · simp [handleTop, hk, hcb] at hn; omega
    · intro e2 he2
      obtain rfl : e = e2 := by simpa using he2
      constructor
      · intro hk
        simp [handleTop, hk]
      · intro hk hcb
        simp [handleTop, hk, hcb]
    · intro e2 he2
      by_cases hk : e.cls = ExcClass.keyboardInterrupt
      · simp [handleTop, hk] at he2
      · cases hcb : e.cls.catchableByExcept
        · simp [handleTop, hk, hcb] at he2
          subst he2
          exact ⟨hcb, hk⟩
        · simp [handleTop, hk, hcb] at he2
  · refine ⟨?_, ?_, ?_⟩
    · intro n hn
      simp [handleTop] at hn
      rcases runCommand_codes args m k hr with h | h <;> omega
    · intro e2 he2
      simp at he2
    · intro e2 he2
      simp [handleTop] at he2

/-- C9 (amended) witness: a KeyboardInterrupt raised by check_health
during the health command is caught and the interruption notice printed
with exit code 1, while the SystemExit-like class that escapes is indeed
outside both handlers. -/
theorem cli_exception_containment_w :
    (mainRun (defaultArgs Cmd.health) (Except.ok mgrKbdInt) =
      ((runCommand (defaultArgs Cmd.health) mgrKbdInt).1 ++
        [Event.print "\nInterrupted by user"], Except.ok 1)) ∧
    (sysExit.cls.catchableByExcept = false ∧
      sysExit.cls ≠ ExcClass.keyboardInterrupt) :=
  ⟨((cli_exception_containment (defaultArgs Cmd.health) mgrKbdInt).2.1 kbdInt rfl).1 rfl,
   (cli_exception_containment (defaultArgs Cmd.stop) mgrSysExit).2.2 sysExit rfl⟩

/-- C10: if the LexeManager constructor raises anything other than a
ValueError, that exception propagates out of main uncaught, with no
output and no command executed. -/
theorem cli_ctor_other_exc_propagates (args : Args) (e : Exc)
    (h : e.cls ≠ ExcClass.valueError) :
    mainRun args (Except.error e) = ([], Except.error e) := by
  simp [mainRun, h]

/-- C10 witness: a TypeError-like constructor failure on the start
command. -/
theorem cli_ctor_other_exc_propagates_w :
    mainRun (defaultArgs Cmd.start) (Except.error typeErr) = ([], Except.error typeErr) :=
  cli_ctor_other_exc_propagates (defaultArgs Cmd.start) typeErr (by decide)

end LexeCli
